import Mathlib

/-
Verification of the SDP Workshop repository: the identity and namespace
resolver, the synthetic data generators (orders, status updates, customer
CDC events), the incremental orders file utility, the best-effort teardown
step, and the reference CDC flow applied to the seed customer events.

Randomness is modelled by explicit choice functions: each call of
random.randint or random.choice at loop index i is replaced by the value of
a function argument at i, constrained by hypotheses to the range the source
draws from.
-/

/-- Decimal digit characters of a number, most significant digit first.
The first argument is recursion fuel; any fuel at least the number itself
yields all digits.  Mirrors the decimal rendering done by Python string
formatting. -/
def decCharsCore : Nat → Nat → List Char
  | _, 0 => []
  | 0, _ + 1 => []
  | fuel + 1, n + 1 =>
    decCharsCore fuel ((n + 1) / 10) ++ [Nat.digitChar ((n + 1) % 10)]

/-- Decimal string of a natural number, as Python str renders it. -/
def natStr (n : Nat) : List Char :=
  if n = 0 then ['0'] else decCharsCore n n

/-- Zero padding to a given minimal width, as a Python format spec such as
05d renders it: pad with leading zero characters, never truncate. -/
def zfillChars (width n : Nat) : List Char :=
  List.replicate (width - (natStr n).length) '0' ++ natStr n

/-- String form of zero-padded decimal rendering. -/
def zfill (width n : Nat) : String := ⟨zfillChars width n⟩

/-- Embeds the Python expression current_user.split("@")[0]: the part of
the identity string before the first at-sign, the whole string when no
at-sign is present. -/
def usernameOf (identity : String) : String :=
  ⟨identity.data.takeWhile fun c => c ≠ '@'⟩

/-- One character of re.sub applied after str.lower in the setup notebook:
lower-case the character, keep it when it falls in the class a-z0-9,
replace it by an underscore otherwise. -/
def cleanChar (c : Char) : Char :=
  let lc := c.toLower
  if ('a' ≤ lc ∧ lc ≤ 'z') ∨ ('0' ≤ lc ∧ lc ≤ '9') then lc else '_'

/-- Embeds re.sub applied to username.lower() in the setup notebook. -/
def clean_username (identity : String) : String :=
  ⟨(usernameOf identity).data.map cleanChar⟩

/-- The configuration values computed by WorkshopHelper in the setup
notebook. -/
structure WorkshopHelper where
  username : String
  clean_username : String
  catalog_name : String
  default_schema : String
  working_dir : String
  bronze_schema : String
  silver_schema : String
  gold_schema : String
deriving DecidableEq

/-- Embeds the construction of the WorkshopHelper instance from the
current user identity: all values are computed from the identity string
alone. -/
def mkWorkshopHelper (identity : String) : WorkshopHelper :=
  let cu := clean_username identity
  let cat := "sdp_workshop_" ++ cu
  let ds := "default"
  { username := usernameOf identity
    clean_username := cu
    catalog_name := cat
    default_schema := ds
    working_dir := "/Volumes/" ++ cat ++ "/" ++ ds ++ "/raw"
    bronze_schema := "bronze"
    silver_schema := "silver"
    gold_schema := "gold" }

/-- The message printed by the teardown step. -/
inductive TeardownLog where
  | cleaned (catalog : String)
  | firstRunNote
deriving DecidableEq

/-- Embeds the try/except block around DROP CATALOG IF EXISTS CASCADE in
the setup notebook.  The outcome of the platform call is a parameter: a
success prints the cleaned-up message, and a raised exception is caught
and turned into the informational first-run note. -/
def teardown (dropCatalogResult : Except String Unit) (catalog : String) :
    Except String TeardownLog :=
  match dropCatalogResult with
  | Except.ok _ => Except.ok (TeardownLog.cleaned catalog)
  | Except.error _ => Except.ok TeardownLog.firstRunNote

/- Decoding helpers used to reason about zero-padded decimal strings. -/

/-- Numeric value of a decimal digit character. -/
def charVal (c : Char) : Nat := c.toNat - 48

/-- Value of a most-significant-first decimal digit string. -/
def decodeDec (cs : List Char) : Nat :=
  cs.foldl (fun a c => 10 * a + charVal c) 0

theorem digitChar_charVal : ∀ d, d < 10 → charVal (Nat.digitChar d) = d := by decide

theorem foldl_dec_append (cs : List Char) (c : Char) (a : Nat) :
    (cs ++ [c]).foldl (fun a c => 10 * a + charVal c) a
      = 10 * cs.foldl (fun a c => 10 * a + charVal c) a + charVal c := by
  rw [List.foldl_append]
  rfl

theorem decodeDec_decCharsCore : ∀ fuel n, n ≤ fuel → decodeDec (decCharsCore fuel n) = n := by
  intro fuel
  induction fuel with
  | zero =>
    intro n hn
    interval_cases n
    rfl
  | succ fuel ih =>
    intro n hn
    match n with
    | 0 => rfl
    | m + 1 =>
      have hdiv : (m + 1) / 10 ≤ fuel := by omega
      show decodeDec (decCharsCore fuel ((m + 1) / 10) ++ [Nat.digitChar ((m + 1) % 10)]) = m + 1
      unfold decodeDec
      rw [foldl_dec_append]
      have h1 : decodeDec (decCharsCore fuel ((m + 1) / 10)) = (m + 1) / 10 := ih _ hdiv
      unfold decodeDec at h1
      rw [h1, digitChar_charVal _ (by omega)]
      omega

theorem decodeDec_natStr (n : Nat) : decodeDec (natStr n) = n := by
  unfold natStr
  by_cases h : n = 0
  · subst h; rfl
  · rw [if_neg h]
    exact decodeDec_decCharsCore n n (Nat.le_refl n)

theorem decodeDec_replicate_zero (k : Nat) (cs : List Char) :
    decodeDec (List.replicate k '0' ++ cs) = decodeDec cs := by
  induction k with
  | zero => rfl
  | succ k ih =>
    show decodeDec ('0' :: (List.replicate k '0' ++ cs)) = decodeDec cs
    unfold decodeDec at ih ⊢
    simpa using ih

theorem decodeDec_zfillChars (w n : Nat) : decodeDec (zfillChars w n) = n := by
  unfold zfillChars
  rw [decodeDec_replicate_zero, decodeDec_natStr]

theorem string_data_append (s t : String) : (s ++ t).data = s.data ++ t.data := rfl

theorem zfill_inj {w a b : Nat} (h : zfill w a = zfill w b) : a = b := by
  have hd : zfillChars w a = zfillChars w b := congrArg String.data h
  have := congrArg decodeDec hd
  rwa [decodeDec_zfillChars, decodeDec_zfillChars] at this

/- Small list helpers for the resolver proofs. -/

theorem takeWhile_eq_self_of_forall {p : Char → Bool} :
    ∀ l : List Char, (∀ c ∈ l, p c = true) → l.takeWhile p = l := by
  intro l
  induction l with
  | nil => intro _; rfl
  | cons c t ih =>
    intro h
    rw [List.takeWhile_cons, h c (List.mem_cons_self c t)]
    rw [ih fun d hd => h d (List.mem_cons_of_mem c hd)]
    rfl

theorem mem_takeWhile_pred {p : Char → Bool} :
    ∀ l : List Char, ∀ c ∈ l.takeWhile p, p c = true := by
  intro l
  induction l with
  | nil => intro c hc; cases hc
  | cons d t ih =>
    intro c hc
    rw [List.takeWhile_cons] at hc
    by_cases hd : p d = true
    · rw [hd] at hc
      simp only [if_true] at hc
      rcases List.mem_cons.mp hc with h | h
      · rwa [h]
      · exact ih c h
    · rw [Bool.not_eq_true] at hd
      rw [hd] at hc
      simp at hc

/-- Claim C3: for every identity string, the resolver takes the substring
before the first at-sign as the username (the whole string when none is
present), and the cleaned username consists only of characters from the
class a-z, 0-9 and underscore, and is non-empty whenever the portion
before the at-sign is non-empty. -/
theorem clean_username_spec (identity : String) :
    (('@' ∉ identity.data) → usernameOf identity = identity)
    ∧ '@' ∉ (usernameOf identity).data
    ∧ (∀ c ∈ (clean_username identity).data,
        ('a' ≤ c ∧ c ≤ 'z') ∨ ('0' ≤ c ∧ c ≤ '9') ∨ c = '_')
    ∧ ((usernameOf identity).data ≠ [] → (clean_username identity).data ≠ []) := by
  refine ⟨?_, ?_, ?_, ?_⟩
  · intro h
    show (⟨identity.data.takeWhile fun c => c ≠ '@'⟩ : String) = identity
    rw [takeWhile_eq_self_of_forall identity.data ?_]
    · intro c hc
      simp only [decide_eq_true_eq]
      intro hceq
      exact h (hceq ▸ hc)
  · intro hmem
    have := mem_takeWhile_pred (p := fun c => c ≠ '@') identity.data '@' hmem
    simp at this
  · intro c hc
    obtain ⟨c0, _, hc0⟩ := List.mem_map.mp hc
    unfold cleanChar at hc0
    by_cases hcl : ('a' ≤ c0.toLower ∧ c0.toLower ≤ 'z') ∨ ('0' ≤ c0.toLower ∧ c0.toLower ≤ '9')
    · rw [if_pos hcl] at hc0
      subst hc0
      rcases hcl with h | h
      · exact Or.inl h
      · exact Or.inr (Or.inl h)
    · rw [if_neg hcl] at hc0
      exact Or.inr (Or.inr hc0.symm)
  · intro h
    show ((usernameOf identity).data.map cleanChar) ≠ []
    simpa using h

/-- Witness for claim C3 at a concrete email-shaped identity. -/
theorem clean_username_spec_witness :
    '@' ∈ ("Alice.Smith@example.com" : String).data
    ∧ (usernameOf "Alice.Smith@example.com").data ≠ []
    ∧ (clean_username "Alice.Smith@example.com").data ≠ [] := by
  refine ⟨by decide, by decide, ?_⟩
  exact (clean_username_spec "Alice.Smith@example.com").2.2.2 (by decide)

/-- Claim C8: every failure of the platform call in the teardown step is
caught locally and turned into an informational note; the teardown step
never propagates an error to the caller. -/
theorem teardown_never_fails (dropCatalogResult : Except String Unit) (catalog : String) :
    ∃ log, teardown dropCatalogResult catalog = Except.ok log := by
  cases dropCatalogResult with
  | ok _ => exact ⟨TeardownLog.cleaned catalog, rfl⟩
  | error _ => exact ⟨TeardownLog.firstRunNote, rfl⟩

/-- Claim C9: namespace resolution is deterministic: two runs of the
resolver on the same identity produce identical catalog and working
directory values, which are computed from the identity alone. -/
theorem namespace_resolution_deterministic (id1 id2 : String) (h : id1 = id2) :
    (mkWorkshopHelper id1).catalog_name = (mkWorkshopHelper id2).catalog_name
    ∧ (mkWorkshopHelper id1).working_dir = (mkWorkshopHelper id2).working_dir
    ∧ (mkWorkshopHelper id1).catalog_name = "sdp_workshop_" ++ clean_username id1
    ∧ (mkWorkshopHelper id1).working_dir
        = "/Volumes/sdp_workshop_" ++ clean_username id1 ++ "/default/raw" := by
  subst h
  refine ⟨rfl, rfl, rfl, ?_⟩
  apply String.ext
  simp only [mkWorkshopHelper, string_data_append, List.append_assoc]
  rfl

/-- Witness for claim C9 at a concrete identity. -/
theorem namespace_resolution_deterministic_witness :
    (mkWorkshopHelper "user@example.com").catalog_name
      = (mkWorkshopHelper "user@example.com").catalog_name
    ∧ (mkWorkshopHelper "user@example.com").catalog_name
      = "sdp_workshop_" ++ clean_username "user@example.com" :=
  ⟨(namespace_resolution_deterministic "user@example.com" "user@example.com" rfl).1,
   (namespace_resolution_deterministic "user@example.com" "user@example.com" rfl).2.2.1⟩

/- Synthetic order and status generators. -/

/-- A calendar date; order timestamps in the generated data are dates in
January 2024 rendered in ISO form. -/
structure Date where
  year : Nat
  month : Nat
  day : Nat
deriving DecidableEq

/-- The base date datetime(2024, 1, 1) of the generators. -/
def jan2024 : Date := ⟨2024, 1, 1⟩

/-- Adding a day offset to a date, as timedelta does; valid while the
result stays inside the starting month, which covers the only use in the
source (offsets 0 to 30 from 2024-01-01). -/
def addDays (d : Date) (offset : Nat) : Date :=
  ⟨d.year, d.month, d.day + offset⟩

/-- Calendar order on dates. -/
def dateLE (a b : Date) : Prop :=
  a.year < b.year
    ∨ (a.year = b.year ∧ (a.month < b.month ∨ (a.month = b.month ∧ a.day ≤ b.day)))

/-- The notifications object of an order record: two boolean fields. -/
structure Notifications where
  email : Bool
  sms : Bool
deriving DecidableEq

/-- One order record as generated by generate_orders and add_orders_file. -/
structure Order where
  order_id : String
  order_timestamp : Date
  customer_id : String
  notifications : Notifications
deriving DecidableEq

/-- One synthetic order record at loop index i.  The functions dayOf,
custOf, emailOf and smsOf supply the values drawn from random.randint and
random.choice at index i; idOffset is 1000 for the setup generator and
1000 + file_number * 1000 for the utility. -/
def mkOrder (idOffset : Nat) (dayOf custOf : Nat → Nat) (emailOf smsOf : Nat → Bool)
    (i : Nat) : Order :=
  { order_id := "ORD" ++ zfill 5 (i + idOffset)
    order_timestamp := addDays jan2024 (dayOf i)
    customer_id := "CUST" ++ zfill 4 (custOf i)
    notifications := { email := emailOf i, sms := smsOf i } }

/-- The list of records written by generate_orders. -/
def generate_orders_records (count : Nat) (dayOf custOf : Nat → Nat)
    (emailOf smsOf : Nat → Bool) : List Order :=
  (List.range count).map (mkOrder 1000 dayOf custOf emailOf smsOf)

/-- generate_orders returns the number of records it wrote. -/
def generate_orders (count : Nat) (dayOf custOf : Nat → Nat)
    (emailOf smsOf : Nat → Bool) : Nat :=
  (generate_orders_records count dayOf custOf emailOf smsOf).length

/-- The records, target path and returned confirmation string of
add_orders_file in the utilities module. -/
structure OrdersFile where
  records : List Order
  file_path : String
  result : String
deriving DecidableEq

/-- Embeds add_orders_file: count records with ids offset by
1000 + file_number * 1000, written to orders/NN.json under the working
directory, returning a confirmation string with the count and the
relative path. -/
def add_orders_file (working_dir : String) (file_number num_orders : Nat)
    (dayOf custOf : Nat → Nat) (emailOf smsOf : Nat → Bool) : OrdersFile :=
  let orders := (List.range num_orders).map
    (mkOrder (1000 + file_number * 1000) dayOf custOf emailOf smsOf)
  let file_name := zfill 2 file_number ++ ".json"
  { records := orders
    file_path := working_dir ++ "/orders/" ++ file_name
    result := "Created " ++ (⟨natStr num_orders⟩ : String) ++ " orders in orders/" ++ file_name }

/-- The substring relation on strings, read on the underlying character
lists. -/
def containsStr (s sub : String) : Prop :=
  ∃ pre suf, pre ++ sub.data ++ suf = s.data

/-- Unix epoch seconds of 2024-01-01T00:00:00, the shared base timestamp
datetime(2024, 1, 1).timestamp() of the status and CDC generators. -/
def base2024 : Nat := 1704067200

/-- One status update record. -/
structure StatusUpdate where
  order_id : String
  order_status : String
  status_timestamp : Nat
deriving DecidableEq

/-- The list of records written by generate_status_updates; orderOf and
statusOf supply the values drawn by random.randint and random.choice at
each index. -/
def generate_status_records (count : Nat) (orderOf : Nat → Nat)
    (statusOf : Nat → String) : List StatusUpdate :=
  (List.range count).map fun i =>
    { order_id := "ORD" ++ zfill 5 (orderOf i)
      order_status := statusOf i
      status_timestamp := base2024 + i * 3600 }

/-- generate_status_updates returns the number of records it wrote. -/
def generate_status_updates (count : Nat) (orderOf : Nat → Nat)
    (statusOf : Nat → String) : Nat :=
  (generate_status_records count orderOf statusOf).length

/-- Claim C4: generate_orders returns its count, writes exactly count
records, the record at index i has order id ORD followed by the five-digit
zero-padded value of i + 1000, and under the source's random ranges every
record has an order date within January 2024 inclusive, a customer id of
the form CUST plus a four-digit zero-padded integer between 1 and 100, and
a notifications object with two boolean fields. -/
theorem generate_orders_spec (count : Nat) (dayOf custOf : Nat → Nat)
    (emailOf smsOf : Nat → Bool)
    (hday : ∀ i, dayOf i ≤ 30) (hcust : ∀ i, 1 ≤ custOf i ∧ custOf i ≤ 100) :
    generate_orders count dayOf custOf emailOf smsOf = count
    ∧ (generate_orders_records count dayOf custOf emailOf smsOf).length = count
    ∧ (∀ i, i < count →
        ((generate_orders_records count dayOf custOf emailOf smsOf)[i]?).map
          Order.order_id = some ("ORD" ++ zfill 5 (i + 1000)))
    ∧ (∀ o ∈ generate_orders_records count dayOf custOf emailOf smsOf,
        dateLE jan2024 o.order_timestamp
        ∧ dateLE o.order_timestamp ⟨2024, 1, 31⟩
        ∧ (∃ k, 1 ≤ k ∧ k ≤ 100 ∧ o.customer_id = "CUST" ++ zfill 4 k)
        ∧ (∃ b1 b2 : Bool, o.notifications = ⟨b1, b2⟩)) := by
  refine ⟨?_, ?_, ?_, ?_⟩
  · simp [generate_orders, generate_orders_records]
  · simp [generate_orders_records]
  · intro i hi
    simp [generate_orders_records, List.getElem?_map, List.getElem?_range, hi, mkOrder]
  · intro o ho
    obtain ⟨i, _, rfl⟩ := List.mem_map.mp ho
    refine ⟨?_, ?_, ⟨custOf i, (hcust i).1, (hcust i).2, rfl⟩, ⟨emailOf i, smsOf i, rfl⟩⟩
    · exact Or.inr ⟨rfl, Or.inr ⟨rfl, by simp [mkOrder, addDays, jan2024]⟩⟩
    · exact Or.inr ⟨rfl, Or.inr ⟨rfl, by have := hday i; simp [mkOrder, addDays, jan2024]; omega⟩⟩

/-- Witness for claim C4 at count 2 and concrete random draws. -/
theorem generate_orders_spec_witness :
    generate_orders 2 (fun _ => 0) (fun _ => 1) (fun _ => true) (fun _ => false) = 2 :=
  (generate_orders_spec 2 (fun _ => 0) (fun _ => 1) (fun _ => true) (fun _ => false)
    (fun _ => (by decide : (0 : Nat) ≤ 30))
    (fun _ => (⟨by decide, by decide⟩ : 1 ≤ (1 : Nat) ∧ (1 : Nat) ≤ 100))).1

/-- Claim C5: generate_status_updates returns its count, and the status
timestamps in file order form a strictly increasing arithmetic sequence
with common difference exactly 3600 starting at the epoch value for
2024-01-01T00:00:00, regardless of the random order ids and statuses. -/
theorem generate_status_updates_spec (count : Nat) (orderOf : Nat → Nat)
    (statusOf : Nat → String) :
    generate_status_updates count orderOf statusOf = count
    ∧ (∀ i, i < count →
        (((generate_status_records count orderOf statusOf).map
            StatusUpdate.status_timestamp)[i]?) = some (base2024 + i * 3600))
    ∧ ((generate_status_records count orderOf statusOf).map
        StatusUpdate.status_timestamp).Pairwise (· < ·) := by
  refine ⟨?_, ?_, ?_⟩
  · simp [generate_status_updates, generate_status_records]
  · intro i hi
    simp [generate_status_records, List.getElem?_map, List.getElem?_range, hi]
  · unfold generate_status_records
    rw [List.map_map, List.pairwise_map]
    have h := List.pairwise_lt_range count
    exact h.imp fun hab => by simp only [Function.comp]; omega

/-- Witness for claim C5 at count 3 and concrete random draws. -/
theorem generate_status_updates_spec_witness :
    generate_status_updates 3 (fun _ => 1000) (fun _ => "placed") = 3
    ∧ (((generate_status_records 3 (fun _ => 1000) (fun _ => "placed")).map
        StatusUpdate.status_timestamp)[1]?) = some (base2024 + 1 * 3600) :=
  ⟨(generate_status_updates_spec 3 (fun _ => 1000) (fun _ => "placed")).1,
   (generate_status_updates_spec 3 (fun _ => 1000) (fun _ => "placed")).2.1 1 (by omega)⟩

theorem decodeDec_zfill (w n : Nat) : decodeDec (zfill w n).data = n :=
  decodeDec_zfillChars w n

/-- Claim C6: add_orders_file writes exactly count records to
orders/NN.json under the workspace root with NN the two-digit zero-padded
file number, the record at index i carries order id ORD plus the
five-digit zero-padded value of i + 1000 + file_number * 1000, and the
returned confirmation string contains both the count and the relative
file path; in particular for file number 3 and count 50 the order ids are
exactly ORD04000 through ORD04049 inclusive and the returned string
contains both 50 and orders/03.json. -/
theorem add_orders_file_spec (wd : String) (fn cnt : Nat) (dayOf custOf : Nat → Nat)
    (emailOf smsOf : Nat → Bool) :
    (add_orders_file wd fn cnt dayOf custOf emailOf smsOf).records.length = cnt
    ∧ (∀ i, i < cnt →
        (((add_orders_file wd fn cnt dayOf custOf emailOf smsOf).records)[i]?).map
          Order.order_id = some ("ORD" ++ zfill 5 (i + 1000 + fn * 1000)))
    ∧ (add_orders_file wd fn cnt dayOf custOf emailOf smsOf).file_path
        = wd ++ "/orders/" ++ zfill 2 fn ++ ".json"
    ∧ containsStr (add_orders_file wd fn cnt dayOf custOf emailOf smsOf).result
        (⟨natStr cnt⟩ : String)
    ∧ containsStr (add_orders_file wd fn cnt dayOf custOf emailOf smsOf).result
        ("orders/" ++ zfill 2 fn ++ ".json")
    ∧ (add_orders_file wd 3 50 dayOf custOf emailOf smsOf).records.map Order.order_id
        = ["ORD04000", "ORD04001", "ORD04002", "ORD04003", "ORD04004", "ORD04005",
          "ORD04006", "ORD04007", "ORD04008", "ORD04009", "ORD04010", "ORD04011",
          "ORD04012", "ORD04013", "ORD04014", "ORD04015", "ORD04016", "ORD04017",
          "ORD04018", "ORD04019", "ORD04020", "ORD04021", "ORD04022", "ORD04023",
          "ORD04024", "ORD04025", "ORD04026", "ORD04027", "ORD04028", "ORD04029",
          "ORD04030", "ORD04031", "ORD04032", "ORD04033", "ORD04034", "ORD04035",
          "ORD04036", "ORD04037", "ORD04038", "ORD04039", "ORD04040", "ORD04041",
          "ORD04042", "ORD04043", "ORD04044", "ORD04045", "ORD04046", "ORD04047",
          "ORD04048", "ORD04049"]
    ∧ containsStr (add_orders_file wd 3 50 dayOf custOf emailOf smsOf).result "50"
    ∧ containsStr (add_orders_file wd 3 50 dayOf custOf emailOf smsOf).result
        "orders/03.json" := by
  refine ⟨?_, ?_, ?_, ?_, ?_, ?_, ?_, ?_⟩
  · simp [add_orders_file]
  · intro i hi
    simp [add_orders_file, List.getElem?_map, List.getElem?_range, hi, mkOrder,
      Nat.add_assoc]
  · apply String.ext
    simp only [add_orders_file, string_data_append, List.append_assoc]
  · refine ⟨"Created ".data, (" orders in orders/" ++ zfill 2 fn ++ ".json").data, ?_⟩
    simp only [add_orders_file, string_data_append, List.append_assoc]
  · refine ⟨"Created ".data ++ natStr cnt ++ " orders in ".data, [], ?_⟩
    simp only [add_orders_file, string_data_append, List.append_assoc, List.append_nil]
    rfl
  · rfl
  · exact ⟨"Created ".data, " orders in orders/03.json".data, rfl⟩
  · exact ⟨"Created 50 orders in ".data, [], rfl⟩

/-- Witness for claim C6 at a concrete invocation. -/
theorem add_orders_file_spec_witness :
    (add_orders_file "/root" 3 50 (fun _ => 0) (fun _ => 1)
      (fun _ => true) (fun _ => false)).records.length = 50 :=
  (add_orders_file_spec "/root" 3 50 (fun _ => 0) (fun _ => 1)
    (fun _ => true) (fun _ => false)).1

/-- Claim C7 counterexample: with file numbers 0 and 1, writing 1001
records in file 0 makes the id ORD02000 appear in both files, so the
claim fails for unrestricted record counts. -/
theorem add_orders_file_overlap_counterexample :
    (0 : Nat) ≠ 1
    ∧ "ORD02000" ∈ (add_orders_file "" 0 1001 (fun _ => 0) (fun _ => 1)
        (fun _ => true) (fun _ => true)).records.map Order.order_id
    ∧ "ORD02000" ∈ (add_orders_file "" 1 1 (fun _ => 0) (fun _ => 1)
        (fun _ => true) (fun _ => true)).records.map Order.order_id := by
  refine ⟨by decide, ?_, ?_⟩
  · simp only [add_orders_file, List.map_map]
    exact List.mem_map.mpr ⟨1000, List.mem_range.mpr (by decide), by decide⟩
  · simp only [add_orders_file, List.map_map]
    exact List.mem_map.mpr ⟨0, List.mem_range.mpr (by decide), by decide⟩

/-- Claim C7 (amended): two invocations of add_orders_file with distinct
file numbers write disjoint sets of order id values provided each
invocation writes at most 1000 records, the width of one file-number id
range. -/
theorem add_orders_file_disjoint_ids (wd1 wd2 : String) (m n cm cn : Nat)
    (dayOf1 custOf1 dayOf2 custOf2 : Nat → Nat)
    (emailOf1 smsOf1 emailOf2 smsOf2 : Nat → Bool)
    (hmn : m ≠ n) (hcm : cm ≤ 1000) (hcn : cn ≤ 1000) :
    ∀ x, x ∈ (add_orders_file wd1 m cm dayOf1 custOf1 emailOf1 smsOf1).records.map
        Order.order_id →
      x ∉ (add_orders_file wd2 n cn dayOf2 custOf2 emailOf2 smsOf2).records.map
        Order.order_id := by
  intro x hx1 hx2
  simp only [add_orders_file, List.map_map, List.mem_map, List.mem_range,
    Function.comp, mkOrder] at hx1 hx2
  obtain ⟨i, hi, hxi⟩ := hx1
  obtain ⟨j, hj, hxj⟩ := hx2
  have heq : ("ORD" ++ zfill 5 (i + (1000 + m * 1000)) : String)
      = "ORD" ++ zfill 5 (j + (1000 + n * 1000)) := by rw [hxi, hxj]
  have hdata := congrArg String.data heq
  rw [string_data_append, string_data_append] at hdata
  have hz := List.append_cancel_left hdata
  have hv := congrArg decodeDec hz
  rw [decodeDec_zfill, decodeDec_zfill] at hv
  omega

/-- Witness for the amended claim C7 at concrete file numbers and counts. -/
theorem add_orders_file_disjoint_ids_witness :
    "ORD01000" ∉ (add_orders_file "" 1 1 (fun _ => 0) (fun _ => 1)
        (fun _ => true) (fun _ => true)).records.map Order.order_id :=
  add_orders_file_disjoint_ids "" "" 0 1 1 1 (fun _ => 0) (fun _ => 1) (fun _ => 0)
    (fun _ => 1) (fun _ => true) (fun _ => true) (fun _ => true) (fun _ => true)
    (by decide) (by decide) (by decide) "ORD01000" (by decide)

/- Customer CDC events and the reference CDC flow. -/

/-- The customer payload carried by INSERT and UPDATE events (and by rows
of the CDC target table, after the metadata columns are excluded). -/
structure CustomerData where
  name : String
  email : String
  address : String
  city : String
  state : String
  zip_code : String
deriving DecidableEq

/-- One customer CDC event.  INSERT and UPDATE events carry a full
customer payload; DELETE events carry only the key, operation and
timestamp, modelled as a missing payload. -/
structure CdcEvent where
  customer_id : String
  payload : Option CustomerData
  operation : String
  timestamp : Nat
deriving DecidableEq

/-- The four cities the INSERT generator draws from with random.choice. -/
def insertCities : List String := ["New York", "Los Angeles", "Chicago", "Houston"]

/-- The four states the INSERT generator draws from with random.choice. -/
def insertStates : List String := ["NY", "CA", "IL", "TX"]

/-- Payload of the INSERT event for customer index i; cityOf and stateOf
supply the random.choice draws. -/
def insData (cityOf stateOf : Nat → String) (i : Nat) : CustomerData :=
  { name := "Customer " ++ (⟨natStr i⟩ : String)
    email := "customer" ++ (⟨natStr i⟩ : String) ++ "@example.com"
    address := (⟨natStr (i * 100)⟩ : String) ++ " Main St"
    city := cityOf i
    state := stateOf i
    zip_code := zfill 5 (10000 + i) }

/-- Payload of the UPDATE event for customer index i: changed email,
address and city, fixed state CA and a 94000-range zip code. -/
def updData (i : Nat) : CustomerData :=
  { name := "Customer " ++ (⟨natStr i⟩ : String)
    email := "newemail" ++ (⟨natStr i⟩ : String) ++ "@example.com"
    address := (⟨natStr (i * 200)⟩ : String) ++ " Oak Ave"
    city := "San Francisco"
    state := "CA"
    zip_code := zfill 5 (94000 + i) }

/-- INSERT event for customer index i, timestamp base + i * 1000. -/
def mkInsertEvent (cityOf stateOf : Nat → String) (i : Nat) : CdcEvent :=
  { customer_id := "CUST" ++ zfill 4 i
    payload := some (insData cityOf stateOf i)
    operation := "INSERT"
    timestamp := base2024 + i * 1000 }

/-- UPDATE event for customer index i, timestamp base + 30000 + i * 100. -/
def mkUpdateEvent (i : Nat) : CdcEvent :=
  { customer_id := "CUST" ++ zfill 4 i
    payload := some (updData i)
    operation := "UPDATE"
    timestamp := base2024 + 30 * 1000 + i * 100 }

/-- DELETE event for customer index i, timestamp base + 60000 + i * 100. -/
def mkDeleteEvent (i : Nat) : CdcEvent :=
  { customer_id := "CUST" ++ zfill 4 i
    payload := none
    operation := "DELETE"
    timestamp := base2024 + 60 * 1000 + i * 100 }

/-- The 27 customer CDC events written by generate_customer_cdc: INSERT
for indices 1 to 20, UPDATE for 1, 5, 10, 15, 20, DELETE for 3 and 7, in
generation order. -/
def generate_customer_cdc_events (cityOf stateOf : Nat → String) : List CdcEvent :=
  (List.range' 1 20).map (mkInsertEvent cityOf stateOf)
    ++ [1, 5, 10, 15, 20].map mkUpdateEvent
    ++ [3, 7].map mkDeleteEvent

/-- generate_customer_cdc returns the number of records it wrote. -/
def generate_customer_cdc (cityOf stateOf : Nat → String) : Nat :=
  (generate_customer_cdc_events cityOf stateOf).length

/-- Sequencing order of CDC events: comparison of the SEQUENCE BY column. -/
def tsLE (a b : CdcEvent) : Prop := a.timestamp ≤ b.timestamp

/-- Strict sequencing order of CDC events. -/
def tsLT (a b : CdcEvent) : Prop := a.timestamp < b.timestamp

instance : DecidableRel tsLE := fun a b => Nat.decLe a.timestamp b.timestamp

instance : IsTotal CdcEvent tsLE := ⟨fun a b => Nat.le_total a.timestamp b.timestamp⟩

instance : IsTrans CdcEvent tsLE := ⟨fun _ _ _ h h' => Nat.le_trans h h'⟩

instance : IsAntisymm CdcEvent tsLT :=
  ⟨fun _ _ h h' => absurd (Nat.lt_trans h h') (Nat.lt_irrefl _)⟩

/-- Replace the row with the given key in place, or append a new row when
the key is absent. -/
def upsert : List (String × CustomerData) → String → CustomerData →
    List (String × CustomerData)
  | [], k, d => [(k, d)]
  | (k0, d0) :: rest, k, d =>
    if k0 = k then (k, d) :: rest else (k0, d0) :: upsert rest k d

/-- Modelled from the spec: one step of the AUTO CDC INTO flow of section
4.5 in SCD TYPE 1 mode, which is not executable code under src.  An event
matching APPLY AS DELETE WHEN operation = DELETE removes the row with the
event's key; any other event with a payload upserts the payload under the
key (COLUMNS * EXCEPT drops the metadata columns, so the target rows hold
only the customer payload). -/
def applyEvent (st : List (String × CustomerData)) (e : CdcEvent) :
    List (String × CustomerData) :=
  if e.operation = "DELETE" then
    st.filter fun p => p.1 != e.customer_id
  else
    match e.payload with
    | some d => upsert st e.customer_id d
    | none => st

/-- Modelled from the spec: the AUTO CDC INTO flow of section 4.5 with
KEYS customer_id, SEQUENCE BY the typed timestamp and STORED AS SCD TYPE
1, as a reference fold that applies the events in sequence-column order
regardless of arrival order. -/
def applyCdc (events : List CdcEvent) : List (String × CustomerData) :=
  (events.insertionSort tsLE).foldl applyEvent []

/-- The operation and timestamp columns of the 27 seed CDC events. -/
def seedOpTs : List (String × Nat) :=
  [("INSERT", base2024 + 1 * 1000), ("INSERT", base2024 + 2 * 1000),
   ("INSERT", base2024 + 3 * 1000), ("INSERT", base2024 + 4 * 1000),
   ("INSERT", base2024 + 5 * 1000), ("INSERT", base2024 + 6 * 1000),
   ("INSERT", base2024 + 7 * 1000), ("INSERT", base2024 + 8 * 1000),
   ("INSERT", base2024 + 9 * 1000), ("INSERT", base2024 + 10 * 1000),
   ("INSERT", base2024 + 11 * 1000), ("INSERT", base2024 + 12 * 1000),
   ("INSERT", base2024 + 13 * 1000), ("INSERT", base2024 + 14 * 1000),
   ("INSERT", base2024 + 15 * 1000), ("INSERT", base2024 + 16 * 1000),
   ("INSERT", base2024 + 17 * 1000), ("INSERT", base2024 + 18 * 1000),
   ("INSERT", base2024 + 19 * 1000), ("INSERT", base2024 + 20 * 1000),
   ("UPDATE", base2024 + 30 * 1000 + 1 * 100), ("UPDATE", base2024 + 30 * 1000 + 5 * 100),
   ("UPDATE", base2024 + 30 * 1000 + 10 * 100),
   ("UPDATE", base2024 + 30 * 1000 + 15 * 100),
   ("UPDATE", base2024 + 30 * 1000 + 20 * 100),
   ("DELETE", base2024 + 60 * 1000 + 3 * 100), ("DELETE", base2024 + 60 * 1000 + 7 * 100)]

theorem events_map_opts (cityOf stateOf : Nat → String) :
    (generate_customer_cdc_events cityOf stateOf).map (fun e => (e.operation, e.timestamp))
      = seedOpTs := rfl

theorem events_map_ts (cityOf stateOf : Nat → String) :
    (generate_customer_cdc_events cityOf stateOf).map CdcEvent.timestamp
      = seedOpTs.map Prod.snd := rfl

theorem events_pairwise_le (cityOf stateOf : Nat → String) :
    (generate_customer_cdc_events cityOf stateOf).Pairwise tsLE := by
  have h : ((generate_customer_cdc_events cityOf stateOf).map
      (fun e => (e.operation, e.timestamp))).Pairwise (fun x y => x.2 ≤ y.2) := by
    rw [events_map_opts]
    decide
  exact List.Pairwise.of_map (fun e : CdcEvent => (e.operation, e.timestamp))
    (fun _ _ hab => hab) h

theorem events_pairwise_lt (cityOf stateOf : Nat → String) :
    (generate_customer_cdc_events cityOf stateOf).Pairwise tsLT := by
  have h : ((generate_customer_cdc_events cityOf stateOf).map
      (fun e => (e.operation, e.timestamp))).Pairwise (fun x y => x.2 < y.2) := by
    rw [events_map_opts]
    decide
  exact List.Pairwise.of_map (fun e : CdcEvent => (e.operation, e.timestamp))
    (fun _ _ hab => hab) h

theorem events_ts_nodup (cityOf stateOf : Nat → String) :
    ((generate_customer_cdc_events cityOf stateOf).map CdcEvent.timestamp).Nodup :=
  List.Pairwise.map CdcEvent.timestamp (fun _ _ hab => Nat.ne_of_lt hab)
    (events_pairwise_lt cityOf stateOf)

theorem events_insertionSort_eq (cityOf stateOf : Nat → String) :
    (generate_customer_cdc_events cityOf stateOf).insertionSort tsLE
      = generate_customer_cdc_events cityOf stateOf :=
  List.Sorted.insertionSort_eq (events_pairwise_le cityOf stateOf)

/-- The 27 seed events with evaluated customer id strings; the literal
form of generate_customer_cdc_events used to compute the CDC fold. -/
def seedEventsLit (cityOf stateOf : Nat → String) : List CdcEvent :=
  [{ customer_id := "CUST0001", payload := some (insData cityOf stateOf 1),
     operation := "INSERT", timestamp := base2024 + 1 * 1000 },
   { customer_id := "CUST0002", payload := some (insData cityOf stateOf 2),
     operation := "INSERT", timestamp := base2024 + 2 * 1000 },
   { customer_id := "CUST0003", payload := some (insData cityOf stateOf 3),
     operation := "INSERT", timestamp := base2024 + 3 * 1000 },
   { customer_id := "CUST0004", payload := some (insData cityOf stateOf 4),
     operation := "INSERT", timestamp := base2024 + 4 * 1000 },
   { customer_id := "CUST0005", payload := some (insData cityOf stateOf 5),
     operation := "INSERT", timestamp := base2024 + 5 * 1000 },
   { customer_id := "CUST0006", payload := some (insData cityOf stateOf 6),
     operation := "INSERT", timestamp := base2024 + 6 * 1000 },
   { customer_id := "CUST0007", payload := some (insData cityOf stateOf 7),
     operation := "INSERT", timestamp := base2024 + 7 * 1000 },
   { customer_id := "CUST0008", payload := some (insData cityOf stateOf 8),
     operation := "INSERT", timestamp := base2024 + 8 * 1000 },
   { customer_id := "CUST0009", payload := some (insData cityOf stateOf 9),
     operation := "INSERT", timestamp := base2024 + 9 * 1000 },
   { customer_id := "CUST0010", payload := some (insData cityOf stateOf 10),
     operation := "INSERT", timestamp := base2024 + 10 * 1000 },
   { customer_id := "CUST0011", payload := some (insData cityOf stateOf 11),
     operation := "INSERT", timestamp := base2024 + 11 * 1000 },
   { customer_id := "CUST0012", payload := some (insData cityOf stateOf 12),
     operation := "INSERT", timestamp := base2024 + 12 * 1000 },
   { customer_id := "CUST0013", payload := some (insData cityOf stateOf 13),
     operation := "INSERT", timestamp := base2024 + 13 * 1000 },
   { customer_id := "CUST0014", payload := some (insData cityOf stateOf 14),
     operation := "INSERT", timestamp := base2024 + 14 * 1000 },
   { customer_id := "CUST0015", payload := some (insData cityOf stateOf 15),
     operation := "INSERT", timestamp := base2024 + 15 * 1000 },
   { customer_id := "CUST0016", payload := some (insData cityOf stateOf 16),
     operation := "INSERT", timestamp := base2024 + 16 * 1000 },
   { customer_id := "CUST0017", payload := some (insData cityOf stateOf 17),
     operation := "INSERT", timestamp := base2024 + 17 * 1000 },
   { customer_id := "CUST0018", payload := some (insData cityOf stateOf 18),
     operation := "INSERT", timestamp := base2024 + 18 * 1000 },
   { customer_id := "CUST0019", payload := some (insData cityOf stateOf 19),
     operation := "INSERT", timestamp := base2024 + 19 * 1000 },
   { customer_id := "CUST0020", payload := some (insData cityOf stateOf 20),
     operation := "INSERT", timestamp := base2024 + 20 * 1000 },
   { customer_id := "CUST0001", payload := some (updData 1),
     operation := "UPDATE", timestamp := base2024 + 30 * 1000 + 1 * 100 },
   { customer_id := "CUST0005", payload := some (updData 5),
     operation := "UPDATE", timestamp := base2024 + 30 * 1000 + 5 * 100 },
   { customer_id := "CUST0010", payload := some (updData 10),
     operation := "UPDATE", timestamp := base2024 + 30 * 1000 + 10 * 100 },
   { customer_id := "CUST0015", payload := some (updData 15),
     operation := "UPDATE", timestamp := base2024 + 30 * 1000 + 15 * 100 },
   { customer_id := "CUST0020", payload := some (updData 20),
     operation := "UPDATE", timestamp := base2024 + 30 * 1000 + 20 * 100 },
   { customer_id := "CUST0003", payload := none,
     operation := "DELETE", timestamp := base2024 + 60 * 1000 + 3 * 100 },
   { customer_id := "CUST0007", payload := none,
     operation := "DELETE", timestamp := base2024 + 60 * 1000 + 7 * 100 }]

theorem events_lit (cityOf stateOf : Nat → String) :
    generate_customer_cdc_events cityOf stateOf = seedEventsLit cityOf stateOf := rfl

theorem applyCdc_events_eq (cityOf stateOf : Nat → String) :
    applyCdc (generate_customer_cdc_events cityOf stateOf)
      = [("CUST0001", updData 1),
         ("CUST0002", insData cityOf stateOf 2),
         ("CUST0004", insData cityOf stateOf 4),
         ("CUST0005", updData 5),
         ("CUST0006", insData cityOf stateOf 6),
         ("CUST0008", insData cityOf stateOf 8),
         ("CUST0009", insData cityOf stateOf 9),
         ("CUST0010", updData 10),
         ("CUST0011", insData cityOf stateOf 11),
         ("CUST0012", insData cityOf stateOf 12),
         ("CUST0013", insData cityOf stateOf 13),
         ("CUST0014", insData cityOf stateOf 14),
         ("CUST0015", updData 15),
         ("CUST0016", insData cityOf stateOf 16),
         ("CUST0017", insData cityOf stateOf 17),
         ("CUST0018", insData cityOf stateOf 18),
         ("CUST0019", insData cityOf stateOf 19),
         ("CUST0020", updData 20)] := by
  unfold applyCdc
  rw [events_insertionSort_eq, events_lit]
  simp [seedEventsLit, List.foldl_cons, List.foldl_nil, applyEvent, upsert]

/-- Claim C1: applying the 27 seed customer CDC events through the CDC
flow with KEYS customer_id, SEQUENCE BY the typed timestamp, APPLY AS
DELETE WHEN operation = DELETE and STORED AS SCD TYPE 1 yields a target
table of exactly 18 rows; the rows with city San Francisco are exactly
the five updated customer ids CUST0001, CUST0005, CUST0010, CUST0015,
CUST0020 and carry the UPDATE values rather than the original INSERT
values; and the deleted ids CUST0003 and CUST0007 are absent. -/
theorem customer_cdc_scd1_result (cityOf stateOf : Nat → String)
    (hcity : ∀ i, cityOf i ∈ insertCities) :
    (applyCdc (generate_customer_cdc_events cityOf stateOf)).length = 18
    ∧ (applyCdc (generate_customer_cdc_events cityOf stateOf)).filter
        (fun p => p.2.city == "San Francisco")
      = [("CUST0001", updData 1), ("CUST0005", updData 5), ("CUST0010", updData 10),
         ("CUST0015", updData 15), ("CUST0020", updData 20)]
    ∧ ((applyCdc (generate_customer_cdc_events cityOf stateOf)).filter
        (fun p => p.2.city == "San Francisco")).map Prod.fst
      = ["CUST0001", "CUST0005", "CUST0010", "CUST0015", "CUST0020"]
    ∧ List.lookup "CUST0003" (applyCdc (generate_customer_cdc_events cityOf stateOf)) = none
    ∧ List.lookup "CUST0007" (applyCdc (generate_customer_cdc_events cityOf stateOf))
        = none := by
  have hres := applyCdc_events_eq cityOf stateOf
  have hb : ∀ i, (cityOf i == "San Francisco") = false := by
    intro i
    have h4 := hcity i
    simp only [insertCities, List.mem_cons, List.not_mem_nil, or_false] at h4
    rcases h4 with h | h | h | h <;> simp [h]
  have hfil : (applyCdc (generate_customer_cdc_events cityOf stateOf)).filter
        (fun p => p.2.city == "San Francisco")
      = [("CUST0001", updData 1), ("CUST0005", updData 5), ("CUST0010", updData 10),
         ("CUST0015", updData 15), ("CUST0020", updData 20)] := by
    rw [hres]
    simp [List.filter_cons, List.filter_nil, insData, updData, hb]
  refine ⟨by rw [hres]; rfl, hfil, by rw [hfil]; rfl, by rw [hres]; rfl, by rw [hres]; rfl⟩

/-- Witness for claim C1 at concrete random draws. -/
theorem customer_cdc_scd1_result_witness :
    (applyCdc (generate_customer_cdc_events (fun _ => "Chicago") (fun _ => "IL"))).length
      = 18 :=
  (customer_cdc_scd1_result (fun _ => "Chicago") (fun _ => "IL")
    (fun _ => (by decide : "Chicago" ∈ insertCities))).1

/-- Claim C2: generate_customer_cdc always returns 27 and writes exactly
20 INSERT records (indices 1 to 20, timestamp base plus index times
1000), 5 UPDATE records (indices 1, 5, 10, 15, 20, timestamp base plus
30000 plus index times 100) and 2 DELETE records (indices 3 and 7,
timestamp base plus 60000 plus index times 100); every INSERT timestamp
is strictly less than every UPDATE timestamp, which is strictly less than
every DELETE timestamp. -/
theorem generate_customer_cdc_spec (cityOf stateOf : Nat → String) :
    generate_customer_cdc cityOf stateOf = 27
    ∧ (generate_customer_cdc_events cityOf stateOf).countP
        (fun e => e.operation == "INSERT") = 20
    ∧ (generate_customer_cdc_events cityOf stateOf).countP
        (fun e => e.operation == "UPDATE") = 5
    ∧ (generate_customer_cdc_events cityOf stateOf).countP
        (fun e => e.operation == "DELETE") = 2
    ∧ (generate_customer_cdc_events cityOf stateOf).map
        (fun e => (e.operation, e.timestamp)) = seedOpTs
    ∧ ∀ e ∈ generate_customer_cdc_events cityOf stateOf,
        ∀ f ∈ generate_customer_cdc_events cityOf stateOf,
          (e.operation = "INSERT" → f.operation = "UPDATE" → e.timestamp < f.timestamp)
          ∧ (e.operation = "UPDATE" → f.operation = "DELETE" → e.timestamp < f.timestamp)
          ∧ (e.operation = "INSERT" → f.operation = "DELETE" → e.timestamp < f.timestamp) := by
  refine ⟨rfl, rfl, rfl, rfl, events_map_opts cityOf stateOf, ?_⟩
  intro e he f hf
  have key : ∀ p ∈ seedOpTs, ∀ q ∈ seedOpTs,
      (p.1 = "INSERT" → q.1 = "UPDATE" → p.2 < q.2)
      ∧ (p.1 = "UPDATE" → q.1 = "DELETE" → p.2 < q.2)
      ∧ (p.1 = "INSERT" → q.1 = "DELETE" → p.2 < q.2) := by decide
  have he' : (e.operation, e.timestamp) ∈ seedOpTs := by
    rw [← events_map_opts cityOf stateOf]
    exact List.mem_map_of_mem _ he
  have hf' : (f.operation, f.timestamp) ∈ seedOpTs := by
    rw [← events_map_opts cityOf stateOf]
    exact List.mem_map_of_mem _ hf
  exact key _ he' _ hf'

/-- Witness for claim C2 at concrete random draws. -/
theorem generate_customer_cdc_spec_witness :
    generate_customer_cdc (fun _ => "Houston") (fun _ => "TX") = 27 :=
  (generate_customer_cdc_spec (fun _ => "Houston") (fun _ => "TX")).1

theorem pairwise_lt_of_sorted_nodup {l : List CdcEvent}
    (hs : l.Pairwise tsLE) (hn : (l.map CdcEvent.timestamp).Nodup) : l.Pairwise tsLT := by
  have hne : l.Pairwise fun a b => a.timestamp ≠ b.timestamp :=
    List.Pairwise.of_map CdcEvent.timestamp (fun _ _ hab => hab) hn
  exact (List.Pairwise.and hs hne).imp fun hab => Nat.lt_of_le_of_ne hab.1 hab.2

/-- Claim C10: the 27 timestamps of the seed CDC events are pairwise
distinct, for each customer id the events affecting that key are strictly
totally ordered by timestamp, and the CDC target state is uniquely
determined regardless of arrival order: the flow applied to any
permutation of the event list yields the same target table. -/
theorem customer_cdc_timestamps_distinct (cityOf stateOf : Nat → String) :
    ((generate_customer_cdc_events cityOf stateOf).map CdcEvent.timestamp).Nodup
    ∧ (∀ k : String,
        (((generate_customer_cdc_events cityOf stateOf).filter
            (fun e => e.customer_id == k)).map CdcEvent.timestamp).Pairwise (· < ·))
    ∧ (∀ l, List.Perm l (generate_customer_cdc_events cityOf stateOf) →
        applyCdc l = applyCdc (generate_customer_cdc_events cityOf stateOf)) := by
  refine ⟨events_ts_nodup cityOf stateOf, ?_, ?_⟩
  · intro k
    exact List.Pairwise.map CdcEvent.timestamp (fun _ _ hab => hab)
      ((events_pairwise_lt cityOf stateOf).sublist (List.filter_sublist _))
  · intro l hperm
    have hsl : (l.insertionSort tsLE).Pairwise tsLE := List.sorted_insertionSort tsLE l
    have hpl : List.Perm (l.insertionSort tsLE) (generate_customer_cdc_events cityOf stateOf) :=
      (List.perm_insertionSort tsLE l).trans hperm
    have hnl : ((l.insertionSort tsLE).map CdcEvent.timestamp).Nodup :=
      ((hpl.map CdcEvent.timestamp).nodup_iff).mpr (events_ts_nodup cityOf stateOf)
    have hlt1 : (l.insertionSort tsLE).Pairwise tsLT := pairwise_lt_of_sorted_nodup hsl hnl
    have heq : l.insertionSort tsLE = generate_customer_cdc_events cityOf stateOf :=
      List.eq_of_perm_of_sorted hpl hlt1 (events_pairwise_lt cityOf stateOf)
    unfold applyCdc
    rw [heq, events_insertionSort_eq]

/-- Witness for claim C10: the reversed event list yields the same CDC
target as the generated order. -/
theorem customer_cdc_timestamps_distinct_witness :
    applyCdc ((generate_customer_cdc_events (fun _ => "Houston") (fun _ => "TX")).reverse)
      = applyCdc (generate_customer_cdc_events (fun _ => "Houston") (fun _ => "TX")) :=
  (customer_cdc_timestamps_distinct (fun _ => "Houston") (fun _ => "TX")).2.2 _
    ((generate_customer_cdc_events (fun _ => "Houston") (fun _ => "TX")).reverse_perm)
